import Mathlib

/-!
# Verification of the tradezero-api core workflows

Shallow embedding of `src/tradezero_api/main.py`: the symbol-data polling
loop (`load_symbol`), the locate negotiation (`locate_stock`,
`credit_locates`) and the order submitters (`market_order`, `limit_order`,
`stop_market_order`, `stop_limit_order`, `range_order`).

The browser/DOM collaborator is modelled by explicit environment inputs:
the text the polled elements would yield at each loop iteration, the last
notification message, popup presence, and the current clock. DOM
*mutations* (clicks, keystrokes, form selections) are recorded as an
explicit event list, so "performs no UI mutation" is `events = []`.
Python floats are modelled as rationals, with `WithTop ℚ` playing the
role of `float('inf')` in the locate-cost comparison. A Python function
that can `raise` returns `Except Err`; a Python function that can fall off
the end returns an `Option` result (`none` models Python's implicit
`None`).
-/

namespace TradeZero

/-- `price.replace('.', '').replace(',', '')` from `load_symbol`
(main.py lines 168, 177): drop every dot and comma. -/
def stripPx (s : String) : String :=
  String.mk (s.data.filter (fun c => c != '.' && c != ','))

/-- Python `str.isdigit` restricted to ASCII digit strings: true iff the
string is non-empty and all of its characters are digits. -/
def pyIsDigit (s : String) : Bool :=
  !s.data.isEmpty && s.data.all (fun c => c.isDigit)

/-- The numeric value of a digit string; for a string satisfying
`pyIsDigit`, Python's `float(price)` compares to zero exactly as this
natural number does. -/
def digitsVal (s : String) : Nat :=
  s.data.foldl (fun a c => 10 * a + (c.toNat - 48)) 0

/-- Python `str.upper` on the ASCII symbols this code handles, written
over the character list so that it computes by kernel reduction. -/
def pyUpper (s : String) : String :=
  String.mk (s.data.map Char.toUpper)

/-- Python `str.lower` on ASCII symbols, over the character list. -/
def pyLower (s : String) : String :=
  String.mk (s.data.map Char.toLower)

/-- The error outcomes (Python exceptions) of the embedded operations. -/
inductive Err
  | symbolNotFound
  | invalidShareAmount
  | noLocateOffer
  | symbolNotLocated
  | invalidQuantity
  | creditTooMany
  | outsideMarketHours
  | invalidTIF
  | divisionByZero
  deriving DecidableEq

/-- The three locate offer rows (`PreBorrow`, `SingleUse`, `Locate`). -/
inductive LocType
  | preBorrow
  | singleUse
  | locate
  deriving DecidableEq

/-- The order directions (`enums.Order`). `enums.py` is not under `src/`;
the constructors and their `value` strings follow the spec's
Buy/Sell/Short/Cover directional submit controls. -/
inductive OrderDir
  | buy
  | sell
  | short
  | cover
  deriving DecidableEq

/-- Modelled from the spec: `enums.py` (the `Order` str-enum) is not under
`src/`; per the spec the directional submit control ids are the lowercase
direction names, so `.value` maps each direction to its lowercase name. -/
def OrderDir.value : OrderDir → String
  | .buy => "buy"
  | .sell => "sell"
  | .short => "short"
  | .cover => "cover"

/-- A DOM mutation performed by the embedded code: every click, keystroke
or form selection, in program order. Reads are not events. -/
inductive Event
  | typeSymbolLookup (s : String)
  | clickLocateTab
  | typeLocateSymbol (s : String)
  | typeLocateShares (n : Option Int)
  | clickLocateButton
  | clickAccept (t : LocType)
  | clickDecline (t : LocType)
  | selectOrderType (i : Nat)
  | selectTIF (s : String)
  | typeQuantity (n : Int)
  | typePrice (p : ℚ)
  | typeStopPrice (p : ℚ)
  | clickOrderButton (d : String)
  | clickPopupCancel
  | typeCreditQty (n : Int)
  | clickCreditSell
  deriving DecidableEq

/-- The polling loop of `load_symbol` (main.py lines 176-192).
`asks i` is the text of the `trading-order-ask` element at loop iteration
`i`; `notifs i` is the last notification message read at iteration `i`.
One loop step: an empty ask keeps polling; a digit string equal to zero
returns `False` (market closed); any other digit string returns `True`;
otherwise, at iterations 15 and 299 only, a notification matching the
`Symbol not found` template raises; in every remaining case the loop
continues. Exhausting the 300 iterations falls through (Python `None`). -/
def loadLoop (symbol : String) (asks notifs : Nat → String) :
    Nat → Nat → Except Err (Option Bool)
  | _, 0 => .ok none
  | i, fuel + 1 =>
    let price := stripPx (asks i)
    if price == "" then loadLoop symbol asks notifs (i + 1) fuel
    else if pyIsDigit price && digitsVal price == 0 then .ok (some false)
    else if pyIsDigit price then .ok (some true)
    else if (i == 15 || i == 299)
        && (notifs i == "Symbol not found: " ++ pyUpper symbol) then
      .error .symbolNotFound
    else loadLoop symbol asks notifs (i + 1) fuel

/-- The pre-loop short-circuit of `load_symbol` (main.py lines 167-170):
if the requested symbol already matches the quote panel and the current
ask strips to a positive digit string, return `True` without typing. -/
def shortCircuit (symbol curSymbol curAsk : String) : Bool :=
  pyUpper symbol == curSymbol
    && pyIsDigit (stripPx curAsk) && !(digitsVal (stripPx curAsk) == 0)

/-- `load_symbol` (main.py lines 159-192). `curSymbol` and `curAsk` are
the quote-panel texts read before the loop; `asks`/`notifs` feed the
polling loop. Result `.ok (some true)` is Python `True`, `.ok (some
false)` is `False`, `.ok none` is the implicit `None` fall-through, and
`.error .symbolNotFound` is the raised exception. The event list records
the symbol keystrokes (sent in lowercase, main.py line 173). -/
def load_symbol (curSymbol curAsk : String) (asks notifs : Nat → String)
    (symbol : String) : Except Err (Option Bool) × List Event :=
  if shortCircuit symbol curSymbol curAsk then (.ok (some true), [])
  else (loadLoop symbol asks notifs 0 300,
    [.typeSymbolLookup (pyLower symbol)])

/-- Skipping lemma: the polling loop ignores a block of empty-string
reads, advancing the iteration index and spending fuel one-for-one. -/
theorem loadLoop_skip (symbol : String) (asks notifs : Nat → String) :
    ∀ k i fuel, k ≤ fuel → (∀ j, j < k → stripPx (asks (i + j)) = "") →
      loadLoop symbol asks notifs i fuel
        = loadLoop symbol asks notifs (i + k) (fuel - k) := by
  intro k
  induction k with
  | zero => intro i fuel _ _; simp
  | succ k ih =>
    intro i fuel hk hemp
    match fuel, hk with
    | fuel + 1, hk =>
      have h0 : stripPx (asks i) = "" := by
        simpa using hemp 0 (Nat.succ_pos k)
      rw [loadLoop]
      simp only [h0]
      rw [show (("" : String) == "") = true from rfl, if_pos rfl]
      have hrec := ih (i + 1) fuel (Nat.le_of_succ_le_succ hk)
        (fun j hj => by
          have := hemp (j + 1) (Nat.succ_lt_succ hj)
          simpa [Nat.add_comm, Nat.add_assoc, Nat.add_left_comm] using this)
      have e1 : i + 1 + k = i + (k + 1) := by omega
      have e2 : fuel - k = fuel + 1 - (k + 1) := by omega
      rw [hrec, e1, e2]

/-- The polling loop can only raise the symbol-not-found error. -/
theorem loadLoop_error (symbol : String) (asks notifs : Nat → String) :
    ∀ fuel i e, loadLoop symbol asks notifs i fuel = .error e →
      e = .symbolNotFound := by
  intro fuel
  induction fuel with
  | zero => intro i e h; simp [loadLoop] at h
  | succ fuel ih =>
    intro i e h
    rw [loadLoop] at h
    split at h
    · exact ih _ _ h
    · split at h
      · exact absurd h (by simp)
      · split at h
        · exact absurd h (by simp)
        · split at h
          · cases h; rfl
          · exact ih _ _ h

/-- `load_symbol` can only raise the symbol-not-found error. -/
theorem load_symbol_error (curSymbol curAsk : String)
    (asks notifs : Nat → String) (symbol : String) (e : Err)
    (h : (load_symbol curSymbol curAsk asks notifs symbol).1 = .error e) :
    e = .symbolNotFound := by
  rw [load_symbol] at h
  split at h
  · exact absurd h (by simp)
  · exact loadLoop_error symbol asks notifs 300 0 e h

/-- C2: for every polling trace of `load_symbol`, if the poll at
iteration `k` (after the empty reads that preceded it) strips to a digit
string, the call returns `True` exactly when its value is positive and
`False` when it is zero, no matter how many empty reads came first. -/
theorem load_symbol_ready_or_closed (curSymbol curAsk : String)
    (asks notifs : Nat → String) (symbol : String) (k : Nat)
    (hsc : shortCircuit symbol curSymbol curAsk = false)
    (hk : k < 300)
    (hemp : ∀ j, j < k → stripPx (asks j) = "")
    (hdig : pyIsDigit (stripPx (asks k)) = true) :
    (load_symbol curSymbol curAsk asks notifs symbol).1
      = .ok (some (decide (0 < digitsVal (stripPx (asks k))))) := by
  rw [load_symbol, if_neg (by simp [hsc])]
  dsimp only
  rw [loadLoop_skip symbol asks notifs k 0 300 (Nat.le_of_lt hk)
    (fun j hj => by simpa using hemp j hj)]
  have hfuel : 300 - k = (299 - k) + 1 := by omega
  rw [hfuel, loadLoop]
  simp only [Nat.zero_add]
  have hne : ¬ ((stripPx (asks k) == "") = true) := by
    simp only [beq_iff_eq]
    intro hcon
    rw [hcon] at hdig
    exact absurd hdig (by decide)
  rw [if_neg hne]
  by_cases hz : digitsVal (stripPx (asks k)) = 0
  · rw [if_pos (by simp [hdig, hz])]
    simp [hz]
  · rw [if_neg (by simp [hdig, hz]), if_pos hdig]
    have hpos := Nat.pos_of_ne_zero hz
    simp [hpos]

/-- Witness for C2: a trace with one empty read followed by the ask text
`25.5` (strips to the positive digit string `255`) returns `True`. -/
theorem load_symbol_ready_or_closed_witness :
    pyIsDigit (stripPx ((fun n => if n = 0 then "" else "25.5") 1)) = true ∧
    (load_symbol "" "" (fun n => if n = 0 then "" else "25.5")
      (fun _ => "") "aapl").1 = .ok (some true) := by
  constructor
  · decide
  · exact load_symbol_ready_or_closed "" ""
      (fun n => if n = 0 then "" else "25.5") (fun _ => "") "aapl" 1
      (by decide) (by decide)
      (fun j hj => by
        have hj0 : j = 0 := by omega
        subst hj0; rfl)
      (by decide)

/-- Counterexample for C3 as stated: a trace whose ask field reads as the
empty string at every iteration, with the last notification equal to the
`Symbol not found` template throughout, does not raise — the checkpoint
notification check is skipped whenever the ask text is empty, and the
call falls through returning `None`. -/
theorem load_symbol_checkpoint_empty_skipped :
    (load_symbol "" "" (fun _ => "")
      (fun _ => "Symbol not found: AAPL") "AAPL").1 = .ok none ∧
    (Except.ok (none : Option Bool) : Except Err (Option Bool))
      ≠ .error Err.symbolNotFound := by
  constructor
  · rw [load_symbol, if_neg (by decide)]
    dsimp only
    rw [loadLoop_skip "AAPL" (fun _ => "")
      (fun _ => "Symbol not found: AAPL") 300 0 300 le_rfl (fun j hj => rfl)]
    rfl
  · intro h
    exact Except.noConfusion h

/-- C3 (amended): the notification check at iterations 15 and 299 runs
only when the ask text at that iteration is non-empty and non-numeric; in
that case, if the last notification equals the `Symbol not found`
template for the requested symbol, the call raises `SymbolNotFound`. -/
theorem load_symbol_notfound_checkpoint (curSymbol curAsk : String)
    (asks notifs : Nat → String) (symbol : String) (k : Nat)
    (hsc : shortCircuit symbol curSymbol curAsk = false)
    (hk : k = 15 ∨ k = 299)
    (hemp : ∀ j, j < k → stripPx (asks j) = "")
    (hne : stripPx (asks k) ≠ "")
    (hnd : pyIsDigit (stripPx (asks k)) = false)
    (hmsg : notifs k = "Symbol not found: " ++ pyUpper symbol) :
    (load_symbol curSymbol curAsk asks notifs symbol).1
      = .error .symbolNotFound := by
  rw [load_symbol, if_neg (by simp [hsc])]
  dsimp only
  have hk300 : k < 300 := by rcases hk with h | h <;> omega
  rw [loadLoop_skip symbol asks notifs k 0 300 (Nat.le_of_lt hk300)
    (fun j hj => by simpa using hemp j hj)]
  have hfuel : 300 - k = (299 - k) + 1 := by omega
  rw [hfuel, loadLoop]
  simp only [Nat.zero_add]
  rw [if_neg (by simp [hne]), if_neg (by simp [hnd]), if_neg (by simp [hnd]),
    if_pos (by rcases hk with h | h <;> subst h <;> simp [hmsg])]

/-- Witness for the amended C3: empty reads up to iteration 15, a
non-numeric ask text there, and a matching notification raise the
symbol-not-found error. -/
theorem load_symbol_notfound_checkpoint_witness :
    pyIsDigit (stripPx ((fun n : Nat => if n = 15 then "abc" else "") 15))
        = false ∧
    (load_symbol "" "" (fun n => if n = 15 then "abc" else "")
      (fun _ => "Symbol not found: AAPL") "aapl").1
        = .error .symbolNotFound := by
  constructor
  · decide
  · exact load_symbol_notfound_checkpoint "" ""
      (fun n => if n = 15 then "abc" else "")
      (fun _ => "Symbol not found: AAPL") "aapl" 15
      (by decide) (Or.inl rfl)
      (fun j hj => by
        have h15 : ¬ j = 15 := by omega
        simp only [if_neg h15]
        rfl)
      (by decide) (by decide) (by decide)

/-- The offer-row reads of one iteration of the locate polling loop
(main.py lines 316-337). Each field is one row's `try` block: `none`
means the price-per-share cell read raised (nothing assigned);
`some (p, t?)` means the cell-2 read yielded `p` and the cell-6 read then
yielded `t?` (`none` if that second read raised). Iterations before the
first one with any successful cell-2 read assign nothing, so the loop's
final variable state is exactly the breaking iteration's row reads. -/
structure RowRead where
  pb : Option (ℚ × Option ℚ)
  su : Option (ℚ × Option ℚ)
  lo : Option (ℚ × Option ℚ)
  deriving DecidableEq

/-- The offer polling loop of `locate_stock` (main.py lines 316-337): up
to 300 iterations; break as soon as any price-per-share value was read
(line 332); `none` is the `for`-`else` fall-through (no offer ever
appeared). -/
def pollOffers (reads : Nat → RowRead) : Nat → Nat → Option RowRead
  | _, 0 => none
  | i, fuel + 1 =>
    let r := reads i
    if r.pb.isSome || r.su.isSome || r.lo.isSome then some r
    else pollOffers reads (i + 1) fuel

/-- The `None`-to-`float('inf')` conversion (main.py lines 346-351):
absent reads compare as `⊤`. -/
def toCost : Option ℚ → WithTop ℚ
  | none => ⊤
  | some q => (q : WithTop ℚ)

/-- The locate-type selection (main.py lines 343-367): PreBorrow wins if
its total is `≤` both others, else SingleUse if its total is `≤` both
others, else Locate; the selected row's price-per-share and total are
kept. -/
def selectLocate (pp ps pl tp ts tl : WithTop ℚ) :
    LocType × WithTop ℚ × WithTop ℚ :=
  if tp ≤ ts ∧ tp ≤ tl then (.preBorrow, pp, tp)
  else if ts ≤ tp ∧ ts ≤ tl then (.singleUse, ps, ts)
  else (.locate, pl, tl)

/-- The named tuple `Data(price_per_share, total)` returned by
`locate_stock`; either field may be the infinite sentinel. -/
structure LData where
  price_per_share : WithTop ℚ
  total : WithTop ℚ
  deriving DecidableEq

/-- The accept/decline step of `locate_stock` (main.py lines 369-378):
accept (click the first span of the selected row's cell-8) when the
selected total is `≤ max_price`, else decline (click the second span);
the selected price/total pair is returned either way. -/
def settleLocate (sel : LocType × WithTop ℚ × WithTop ℚ) (max_price : ℚ) :
    Except Err (Option LData) × List Event :=
  if sel.2.2 ≤ (max_price : WithTop ℚ) then
    (.ok (some ⟨sel.2.1, sel.2.2⟩), [.clickAccept sel.1])
  else
    (.ok (some ⟨sel.2.1, sel.2.2⟩), [.clickDecline sel.1])

/-- `share_amount is not None and share_amount % 100 != 0`
(main.py line 276). -/
def badShare : Option Int → Bool
  | some sa => sa % 100 != 0
  | none => false

/-- Environment for `locate_stock`: the `load_symbol` inputs, the locate
status text, and the offer-row reads per polling iteration.
`locateStatus` is the text of `short-list-locate-status` once the
unbounded busy-wait at main.py lines 294-295 sees it non-empty (that wait
performs no DOM mutation; the embedding assumes it terminates and reads
this value at line 297). -/
structure LocateEnv where
  curSymbol : String
  curAsk : String
  asks : Nat → String
  notifs : Nat → String
  locateStatus : String
  offerReads : Nat → RowRead

/-- `locate_stock` (main.py lines 262-378). Order of effects: the
share-amount multiple-of-100 check raises before anything else; then
`load_symbol` runs (its falsy results `False`/`None` return `None` with
no further UI action); then the locate tab, symbol and share inputs; an
`Easy to borrow` status returns the zero-cost pair with no bid; otherwise
the locate button is clicked, offers are polled (300 iterations,
`for`-`else` raises if none appear), the cheapest offer is selected and
accepted or declined against `max_price`, and its price/total pair is
returned. -/
def locate_stock (env : LocateEnv) (symbol : String)
    (share_amount : Option Int) (max_price : ℚ) :
    Except Err (Option LData) × List Event :=
  if badShare share_amount then (.error .invalidShareAmount, [])
  else
    match load_symbol env.curSymbol env.curAsk env.asks env.notifs symbol with
    | (.error e, ev) => (.error e, ev)
    | (.ok r, ev) =>
      if r != some true then (.ok none, ev)
      else
        let ev := ev ++ [.clickLocateTab, .typeLocateSymbol symbol,
          .typeLocateShares share_amount]
        if env.locateStatus == "Easy to borrow" then
          (.ok (some ⟨((0 : ℚ) : WithTop ℚ), ((0 : ℚ) : WithTop ℚ)⟩), ev)
        else
          let ev := ev ++ [.clickLocateButton]
          match pollOffers env.offerReads 0 300 with
          | none => (.error .noLocateOffer, ev)
          | some row =>
            let sel := selectLocate
              (toCost (row.pb.map Prod.fst)) (toCost (row.su.map Prod.fst))
              (toCost (row.lo.map Prod.fst)) (toCost (row.pb.bind Prod.snd))
              (toCost (row.su.bind Prod.snd)) (toCost (row.lo.bind Prod.snd))
            let out := settleLocate sel max_price
            (out.1, ev ++ out.2)

/-- `credit_locates` (main.py lines 380-410). The located-symbols table
read and membership check come first (a read, not a mutation); then, when
a quantity is given, the multiple-of-100 check, then the located-shares
bound; the quantity keystrokes and the sell-button click are the only
mutations. -/
def credit_locates (locatedSymbols : List String) (locatedShares : ℚ)
    (symbol : String) (quantity : Option Int) :
    Except Err Unit × List Event :=
  if pyUpper symbol ∈ locatedSymbols then
    match quantity with
    | some q =>
      if q % 100 ≠ 0 then (.error .invalidQuantity, [])
      else if (q : ℚ) > locatedShares then (.error .creditTooMany, [])
      else (.ok (), [.typeCreditQty q, .clickCreditSell])
    | none => (.ok (), [.clickCreditSell])
  else (.error .symbolNotLocated, [])

/-- Python `int()` truncation toward zero of a rational. -/
def pyTrunc (q : ℚ) : Int :=
  q.num.tdiv (q.den : Int)

/-- The value returned by `calculate_order_quantity`: a float when
`float_option` is set, otherwise the truncated integer. -/
inductive CalcVal
  | ofFloat (q : ℚ)
  | ofInt (n : Int)
  deriving DecidableEq

/-- `calculate_order_quantity` (main.py lines 244-260): a `False` from
`load_symbol` returns `None`; a raised error propagates; otherwise the
quantity is `buying_power / last` (a zero last price raises Python's
division error), returned as float or truncated int. `lastP` is the
quote-panel last price read by `self.last`. -/
def calculate_order_quantity (curSymbol curAsk : String)
    (asks notifs : Nat → String) (symbol : String)
    (buying_power lastP : ℚ) (float_option : Bool) :
    Except Err (Option CalcVal) × List Event :=
  match load_symbol curSymbol curAsk asks notifs symbol with
  | (.error e, ev) => (.error e, ev)
  | (.ok (some false), ev) => (.ok none, ev)
  | (.ok _, ev) =>
    if lastP = 0 then (.error .divisionByZero, ev)
    else if float_option then (.ok (some (.ofFloat (buying_power / lastP))), ev)
    else (.ok (some (.ofInt (pyTrunc (buying_power / lastP)))), ev)

/-- If no offer row ever yields a read, the offer polling loop exhausts
its fuel and reports failure. -/
theorem pollOffers_none (reads : Nat → RowRead)
    (h : ∀ i, reads i = ⟨none, none, none⟩) :
    ∀ fuel i, pollOffers reads i fuel = none := by
  intro fuel
  induction fuel with
  | zero => intro i; rfl
  | succ fuel ih =>
    intro i
    rw [pollOffers]
    simp only [h i]
    exact ih (i + 1)

/-- Concrete locate environment for the C1 scenario: the load succeeds
at the first poll, the status is hard to borrow, and the first offer poll
reads totals PreBorrow 12, SingleUse 10, Locate 10. -/
def envC1 : LocateEnv :=
  ⟨"", "", fun _ => "1", fun _ => "", "HTB",
   fun _ => ⟨some (3/25, some 12), some (1/10, some 10),
     some (1/10, some 10)⟩⟩

/-- C1: the locate selection picks the offer with the lowest total cost
(absent offers counting as infinite), ties resolved by evaluation order
PreBorrow, then SingleUse, then Locate — the first offer whose total is
`≤` both others wins — and for totals PreBorrow 12, SingleUse 10,
Locate 10 the SingleUse offer is selected, `locate_stock` returning its
price-per-share and total. -/
theorem locate_selection_rule :
    (∀ pp ps pl tp ts tl : WithTop ℚ,
      ((selectLocate pp ps pl tp ts tl).2.2 ≤ tp ∧
       (selectLocate pp ps pl tp ts tl).2.2 ≤ ts ∧
       (selectLocate pp ps pl tp ts tl).2.2 ≤ tl) ∧
      (if tp ≤ ts ∧ tp ≤ tl then
        selectLocate pp ps pl tp ts tl = (.preBorrow, pp, tp)
       else if ts ≤ tp ∧ ts ≤ tl then
        selectLocate pp ps pl tp ts tl = (.singleUse, ps, ts)
       else selectLocate pp ps pl tp ts tl = (.locate, pl, tl))) ∧
    (∀ pp ps pl : WithTop ℚ,
      selectLocate pp ps pl ((12 : ℚ) : WithTop ℚ) ((10 : ℚ) : WithTop ℚ)
          ((10 : ℚ) : WithTop ℚ)
        = (.singleUse, ps, ((10 : ℚ) : WithTop ℚ))) ∧
    locate_stock envC1 "aapl" (some 100) 0
      = (.ok (some ⟨((1/10 : ℚ) : WithTop ℚ), ((10 : ℚ) : WithTop ℚ)⟩),
         [.typeSymbolLookup "aapl", .clickLocateTab, .typeLocateSymbol "aapl",
          .typeLocateShares (some 100), .clickLocateButton,
          .clickDecline .singleUse]) := by
  refine ⟨fun pp ps pl tp ts tl => ?_, fun pp ps pl => ?_, ?_⟩
  · by_cases h1 : tp ≤ ts ∧ tp ≤ tl
    · rw [selectLocate, if_pos h1]
      exact ⟨⟨le_rfl, h1.1, h1.2⟩, by rw [if_pos h1]⟩
    · by_cases h2 : ts ≤ tp ∧ ts ≤ tl
      · rw [selectLocate, if_neg h1, if_pos h2]
        exact ⟨⟨h2.1, le_rfl, h2.2⟩, by rw [if_neg h1, if_pos h2]⟩
      · rw [selectLocate, if_neg h1, if_neg h2]
        have h3 : tl ≤ tp ∧ tl ≤ ts := by
          rcases not_and_or.mp h1 with ha | ha <;>
            rcases not_and_or.mp h2 with hb | hb
          · exact absurd ((le_total tp ts).resolve_left ha) hb
          · exact ⟨(not_le.mp hb).le.trans (not_le.mp ha).le, (not_le.mp hb).le⟩
          · exact ⟨(not_le.mp ha).le, ((not_le.mp ha).trans (not_le.mp hb)).le⟩
          · exact ⟨(not_le.mp ha).le, (not_le.mp hb).le⟩
        exact ⟨⟨h3.1, h3.2, le_rfl⟩, by rw [if_neg h1, if_neg h2]⟩
  · have ha : ¬(((12 : ℚ) : WithTop ℚ) ≤ ((10 : ℚ) : WithTop ℚ) ∧
        ((12 : ℚ) : WithTop ℚ) ≤ ((10 : ℚ) : WithTop ℚ)) := by
      rw [and_self]
      simp only [WithTop.coe_le_coe]
      norm_num
    have hb : ((10 : ℚ) : WithTop ℚ) ≤ ((12 : ℚ) : WithTop ℚ) := by
      simp only [WithTop.coe_le_coe]
      norm_num
    rw [selectLocate, if_neg ha, if_pos ⟨hb, le_rfl⟩]
  · rfl

/-- Concrete locate environment for the C6 scenario (same offers as the
C1 scenario, exercised against a budget of 9). -/
def envC6 : LocateEnv :=
  ⟨"", "", fun _ => "1", fun _ => "", "HTB",
   fun _ => ⟨some (3/25, some 12), some (1/10, some 10),
     some (1/10, some 10)⟩⟩

/-- C6: after an offer is selected, the accept control is clicked when
the selected total is `≤ max_price`, otherwise the decline control is
clicked, and the selected price-per-share/total pair is returned in both
cases — in particular, with `max_price = 9` and selected total `10`,
`locate_stock` declines and still returns total 10. -/
theorem locate_accept_decline :
    (∀ (sel : LocType × WithTop ℚ × WithTop ℚ) (mp : ℚ),
      (settleLocate sel mp).1 = .ok (some ⟨sel.2.1, sel.2.2⟩) ∧
      (if sel.2.2 ≤ (mp : WithTop ℚ) then
        (settleLocate sel mp).2 = [.clickAccept sel.1]
       else (settleLocate sel mp).2 = [.clickDecline sel.1])) ∧
    locate_stock envC6 "aapl" (some 100) 9
      = (.ok (some ⟨((1/10 : ℚ) : WithTop ℚ), ((10 : ℚ) : WithTop ℚ)⟩),
         [.typeSymbolLookup "aapl", .clickLocateTab, .typeLocateSymbol "aapl",
          .typeLocateShares (some 100), .clickLocateButton,
          .clickDecline .singleUse]) := by
  constructor
  · intro sel mp
    by_cases h : sel.2.2 ≤ (mp : WithTop ℚ)
    · rw [settleLocate, if_pos h]
      exact ⟨rfl, by rw [if_pos h]⟩
    · rw [settleLocate, if_neg h]
      exact ⟨rfl, by rw [if_neg h]⟩
  · rfl

/-- Inert locate environment used where the environment is irrelevant. -/
def envC4 : LocateEnv :=
  ⟨"", "", fun _ => "", fun _ => "", "", fun _ => ⟨none, none, none⟩⟩

/-- Counterexample for C4 as stated: a quantity that is not a multiple of
100 passed to `credit_locates` for a symbol that is *not* among the
located symbols fails with the not-located error, not with an
invalid-argument error — the membership check runs first. -/
theorem credit_locates_unlocated_error :
    (150 : Int) % 100 ≠ 0 ∧
    credit_locates ["AAPL"] 0 "msft" (some 150)
      = (.error .symbolNotLocated, []) ∧
    (Except.error Err.symbolNotLocated : Except Err Unit)
      ≠ .error .invalidQuantity := by
  refine ⟨by decide, ?_, by simp⟩
  rw [credit_locates, if_neg (by decide)]

/-- C4 (amended): for every share quantity that is not a multiple of 100,
`locate_stock` fails with the invalid-share-amount error before any UI
mutation, and `credit_locates` — provided the symbol is among the located
symbols, else it fails earlier with the not-located error — fails with
the invalid-quantity error before any UI mutation. -/
theorem quantity_mod100_rejected (env : LocateEnv) (sym : String)
    (sa : Int) (mp : ℚ) (locSyms : List String) (shares : ℚ)
    (sym2 : String) (q : Int)
    (hsa : sa % 100 ≠ 0) (hq : q % 100 ≠ 0)
    (hmem : pyUpper sym2 ∈ locSyms) :
    locate_stock env sym (some sa) mp = (.error .invalidShareAmount, []) ∧
    credit_locates locSyms shares sym2 (some q)
      = (.error .invalidQuantity, []) := by
  constructor
  · have hb : badShare (some sa) = true := by simp [badShare, hsa]
    rw [locate_stock, if_pos hb]
  · rw [credit_locates, if_pos hmem]
    simp only [if_pos hq]

/-- Witness for the amended C4 at quantity 150 and a located symbol. -/
theorem quantity_mod100_rejected_witness :
    (150 : Int) % 100 ≠ 0 ∧ pyUpper "aapl" ∈ ["AAPL"] ∧
    locate_stock envC4 "aapl" (some 150) 0
      = (.error .invalidShareAmount, []) ∧
    credit_locates ["AAPL"] 0 "aapl" (some 150)
      = (.error .invalidQuantity, []) := by
  have h := quantity_mod100_rejected envC4 "aapl" 150 0 ["AAPL"] 0 "aapl" 150
    (by decide) (by decide) (by decide)
  exact ⟨by decide, by decide, h.1, h.2⟩

/-- Counterexample for C9 as stated: `load_symbol` does not raise after
exhausting all 300 polls without a terminal value — a trace of 300 empty
reads (no matching notification) silently falls through to `None`. -/
theorem load_symbol_exhaust_returns_none :
    (load_symbol "x" "" (fun _ => "") (fun _ => "") "aapl").1 = .ok none ∧
    (∀ e : Err,
      (Except.ok (none : Option Bool) : Except Err (Option Bool))
        ≠ .error e) := by
  constructor
  · rw [load_symbol, if_neg (by decide)]
    dsimp only
    rw [loadLoop_skip "aapl" (fun _ => "") (fun _ => "") 300 0 300 le_rfl
      (fun j hj => rfl)]
    rfl
  · intro e h
    exact Except.noConfusion h

/-- C9 (amended): exhausting the offer polling budget in `locate_stock`
with no offer data raises the no-locate-offer error; `load_symbol`,
however, returns no result at all (Python `None`) after all 300 polls
complete without a terminal price, rather than raising. -/
theorem poll_exhaustion_behavior (env : LocateEnv) (sym : String)
    (sa : Option Int) (mp : ℚ) (ev : List Event)
    (hbad : badShare sa = false)
    (hload : load_symbol env.curSymbol env.curAsk env.asks env.notifs sym
      = (.ok (some true), ev))
    (hstat : (env.locateStatus == "Easy to borrow") = false)
    (hoff : ∀ i, env.offerReads i = ⟨none, none, none⟩)
    (curS2 curA2 : String) (asks2 notifs2 : Nat → String) (sym2 : String)
    (hsc2 : shortCircuit sym2 curS2 curA2 = false)
    (hemp2 : ∀ j, j < 300 → stripPx (asks2 j) = "") :
    locate_stock env sym sa mp
      = (.error .noLocateOffer,
         ev ++ [.clickLocateTab, .typeLocateSymbol sym,
           .typeLocateShares sa, .clickLocateButton]) ∧
    (load_symbol curS2 curA2 asks2 notifs2 sym2).1 = .ok none := by
  constructor
  · have hpoll := pollOffers_none env.offerReads hoff 300 0
    simp [locate_stock, hbad, hload, hstat, hpoll]
  · rw [load_symbol, if_neg (by simp [hsc2])]
    dsimp only
    rw [loadLoop_skip sym2 asks2 notifs2 300 0 300 le_rfl
      (fun j hj => by simpa using hemp2 j hj)]
    rfl

/-- Environment for the C9 witness: the load succeeds immediately but no
offer row ever appears. -/
def envC9 : LocateEnv :=
  ⟨"", "", fun _ => "1", fun _ => "", "HTB", fun _ => ⟨none, none, none⟩⟩

/-- Witness for the amended C9. -/
theorem poll_exhaustion_behavior_witness :
    (∀ i, envC9.offerReads i = ⟨none, none, none⟩) ∧
    locate_stock envC9 "aapl" (some 100) 0
      = (.error .noLocateOffer,
         [.typeSymbolLookup "aapl", .clickLocateTab, .typeLocateSymbol "aapl",
          .typeLocateShares (some 100), .clickLocateButton]) ∧
    (load_symbol "x" "" (fun _ => "") (fun _ => "") "msft").1 = .ok none := by
  have h := poll_exhaustion_behavior envC9 "aapl" (some 100) 0
    [.typeSymbolLookup "aapl"] (by decide) rfl (by decide) (fun i => rfl)
    "x" "" (fun _ => "") (fun _ => "") "msft" (by decide) (fun j hj => rfl)
  exact ⟨fun i => rfl, h.1, h.2⟩

/-- C10: when `load_symbol` reports market closed (`False`),
`locate_stock` returns `None` without raising and with no locate-tab or
locate-form mutation (its events are exactly the load's), and
`calculate_order_quantity` likewise returns `None`. -/
theorem market_closed_returns_none (curS curA : String)
    (asks notifs : Nat → String) (sym : String) (status : String)
    (offers : Nat → RowRead) (sa : Option Int) (mp bp lastP : ℚ)
    (fo : Bool) (ev : List Event)
    (hbad : badShare sa = false)
    (hload : load_symbol curS curA asks notifs sym = (.ok (some false), ev)) :
    locate_stock ⟨curS, curA, asks, notifs, status, offers⟩ sym sa mp
      = (.ok none, ev) ∧
    calculate_order_quantity curS curA asks notifs sym bp lastP fo
      = (.ok none, ev) := by
  constructor
  · simp [locate_stock, hbad, hload]
  · simp [calculate_order_quantity, hload]

/-- Witness for C10: an all-zeros ask trace makes the load report market
closed, and both callers yield `None` with only the load's keystrokes. -/
theorem market_closed_returns_none_witness :
    (load_symbol "x" "" (fun _ => "0") (fun _ => "") "aapl").1
      = .ok (some false) ∧
    locate_stock ⟨"x", "", fun _ => "0", fun _ => "", "",
        fun _ => ⟨none, none, none⟩⟩ "aapl" (some 100) 0
      = (.ok none, [.typeSymbolLookup "aapl"]) ∧
    calculate_order_quantity "x" "" (fun _ => "0") (fun _ => "") "aapl"
        100 5 false
      = (.ok none, [.typeSymbolLookup "aapl"]) := by
  have h := market_closed_returns_none "x" "" (fun _ => "0") (fun _ => "")
    "aapl" "" (fun _ => ⟨none, none, none⟩) (some 100) 0 100 5 false
    [.typeSymbolLookup "aapl"] (by decide) rfl
  exact ⟨rfl, h.1, h.2⟩

/-- Modelled from the spec: `time_between` lives in `time_helpers.py`,
which is not under `src/`; the spec states Market and StopMarket orders
require the current time to fall within the regular session 09:30–16:00.
Times are minutes since midnight; the window is inclusive. -/
def time_between (t t1 t2 : Nat) : Bool :=
  t1 ≤ t && t ≤ t2

/-- `time_in_force in ['DAY', 'GTC', 'GTX']`, the validity check shared
by every order submitter (e.g. main.py line 431). -/
def validTIF (tif : String) : Bool :=
  tif == "DAY" || tif == "GTC" || tif == "GTX"

/-- Environment for the order submitters: the current clock (minutes
since midnight), the `load_symbol` inputs, and whether the short-locate
popup is present after submission (so that the dismissal click at
`short-locate-button-cancel` succeeds). -/
structure OrderEnv where
  now : Nat
  curSymbol : String
  curAsk : String
  asks : Nat → String
  notifs : Nat → String
  popupPresent : Bool

/-- `market_order` (main.py lines 466-518): market-hours gate first, then
the TIF check, then the symbol load (raised errors propagate; `False` or
`None` results are tolerated), the form fill and the directional click.
For a Short direction (`order_direction == Order.SHORT`, a str-enum
comparison — `enums.py` is not under `src/`, modelled from the spec's
Short-specific post-submit behavior) a present locate popup is dismissed
and the order is reported not filled (`False`); otherwise `True`. -/
def market_order (env : OrderEnv) (dir : OrderDir) (symbol : String)
    (share_amount : Int) (tif : String) :
    Except Err (Option Bool) × List Event :=
  if !time_between env.now (9 * 60 + 30) (16 * 60) then
    (.error .outsideMarketHours, [])
  else if !validTIF tif then (.error .invalidTIF, [])
  else
    match load_symbol env.curSymbol env.curAsk env.asks env.notifs
        (pyLower symbol) with
    | (.error e, ev) => (.error e, ev)
    | (.ok _, ev) =>
      let ev := ev ++ [.selectOrderType 0, .selectTIF tif,
        .typeQuantity share_amount, .clickOrderButton dir.value]
      if dir == .short then
        if env.popupPresent then (.ok (some false), ev ++ [.clickPopupCancel])
        else (.ok (some true), ev)
      else (.ok (some true), ev)

/-- `limit_order` (main.py lines 412-464): TIF check (no market-hours
gate), symbol load, order type index 1, TIF, quantity and limit price,
directional click, then the Short popup handling as in `market_order`. -/
def limit_order (env : OrderEnv) (dir : OrderDir) (symbol : String)
    (share_amount : Int) (limit_price : ℚ) (tif : String) :
    Except Err (Option Bool) × List Event :=
  if !validTIF tif then (.error .invalidTIF, [])
  else
    match load_symbol env.curSymbol env.curAsk env.asks env.notifs
        (pyLower symbol) with
    | (.error e, ev) => (.error e, ev)
    | (.ok _, ev) =>
      let ev := ev ++ [.selectOrderType 1, .selectTIF tif,
        .typeQuantity share_amount, .typePrice limit_price,
        .clickOrderButton dir.value]
      if dir == .short then
        if env.popupPresent then (.ok (some false), ev ++ [.clickPopupCancel])
        else (.ok (some true), ev)
      else (.ok (some true), ev)

/-- `stop_market_order` (main.py lines 531-580): market-hours gate, TIF
check, symbol load, order type index 2, TIF, quantity and stop price,
directional click — then the function ends with no return statement, so
every direction yields Python `None` (`.ok none`); there is no Short
popup handling. -/
def stop_market_order (env : OrderEnv) (dir : OrderDir) (symbol : String)
    (share_amount : Int) (stop_price : ℚ) (tif : String) :
    Except Err (Option Bool) × List Event :=
  if !time_between env.now (9 * 60 + 30) (16 * 60) then
    (.error .outsideMarketHours, [])
  else if !validTIF tif then (.error .invalidTIF, [])
  else
    match load_symbol env.curSymbol env.curAsk env.asks env.notifs
        (pyLower symbol) with
    | (.error e, ev) => (.error e, ev)
    | (.ok _, ev) =>
      (.ok none, ev ++ [.selectOrderType 2, .selectTIF tif,
        .typeQuantity share_amount, .typeStopPrice stop_price,
        .clickOrderButton dir.value])

/-- `stop_limit_order` (main.py lines 582-629): TIF check only (no
market-hours gate), symbol load, order type index 3, TIF, quantity,
limit then stop price, directional click — and no return statement, so
every direction yields Python `None`; no Short popup handling. -/
def stop_limit_order (env : OrderEnv) (dir : OrderDir) (symbol : String)
    (share_amount : Int) (limit_price stop_price : ℚ) (tif : String) :
    Except Err (Option Bool) × List Event :=
  if !validTIF tif then (.error .invalidTIF, [])
  else
    match load_symbol env.curSymbol env.curAsk env.asks env.notifs
        (pyLower symbol) with
    | (.error e, ev) => (.error e, ev)
    | (.ok _, ev) =>
      (.ok none, ev ++ [.selectOrderType 3, .selectTIF tif,
        .typeQuantity share_amount, .typePrice limit_price,
        .typeStopPrice stop_price, .clickOrderButton dir.value])

/-- `range_order` (main.py lines 632-681): TIF check only, symbol load,
order type index 6, TIF, quantity, low then high price, directional
click — then a bare `return`, so every direction yields Python `None`;
no Short popup handling. -/
def range_order (env : OrderEnv) (dir : OrderDir) (symbol : String)
    (share_amount : Int) (low_price high_price : ℚ) (tif : String) :
    Except Err (Option Bool) × List Event :=
  if !validTIF tif then (.error .invalidTIF, [])
  else
    match load_symbol env.curSymbol env.curAsk env.asks env.notifs
        (pyLower symbol) with
    | (.error e, ev) => (.error e, ev)
    | (.ok _, ev) =>
      (.ok none, ev ++ [.selectOrderType 6, .selectTIF tif,
        .typeQuantity share_amount, .typePrice low_price,
        .typeStopPrice high_price, .clickOrderButton dir.value])

/-- C5: outside the 09:30–16:00 session, `market_order` and
`stop_market_order` fail with the outside-market-hours error before any
DOM mutation, while `limit_order`, `stop_limit_order` and `range_order`
are never rejected on market-hours grounds at any timestamp or
environment. -/
theorem market_hours_gate (env : OrderEnv) (dir : OrderDir) (sym : String)
    (sa : Int) (tif : String) (sp : ℚ)
    (hout : time_between env.now (9 * 60 + 30) (16 * 60) = false) :
    market_order env dir sym sa tif = (.error .outsideMarketHours, []) ∧
    stop_market_order env dir sym sa sp tif
      = (.error .outsideMarketHours, []) ∧
    (∀ (env2 : OrderEnv) (d2 : OrderDir) (s2 : String) (n2 : Int)
        (t2 : String) (p1 p2 : ℚ),
      (limit_order env2 d2 s2 n2 p1 t2).1 ≠ .error .outsideMarketHours ∧
      (stop_limit_order env2 d2 s2 n2 p1 p2 t2).1
        ≠ .error .outsideMarketHours ∧
      (range_order env2 d2 s2 n2 p1 p2 t2).1
        ≠ .error .outsideMarketHours) := by
  refine ⟨?_, ?_, ?_⟩
  · rw [market_order, if_pos (by simp [hout])]
  · rw [stop_market_order, if_pos (by simp [hout])]
  · intro env2 d2 s2 n2 t2 p1 p2
    refine ⟨?_, ?_, ?_⟩
    · rw [limit_order]
      split
      · simp
      · rcases hl : load_symbol env2.curSymbol env2.curAsk env2.asks
          env2.notifs (pyLower s2) with ⟨res, ev⟩
        rcases res with e | r
        · have he : e = Err.symbolNotFound :=
            load_symbol_error _ _ _ _ _ e (by rw [hl])
          subst he
          simp
        · dsimp only
          split
          · split <;> simp
          · simp
    · rw [stop_limit_order]
      split
      · simp
      · rcases hl : load_symbol env2.curSymbol env2.curAsk env2.asks
          env2.notifs (pyLower s2) with ⟨res, ev⟩
        rcases res with e | r
        · have he : e = Err.symbolNotFound :=
            load_symbol_error _ _ _ _ _ e (by rw [hl])
          subst he
          simp
        · simp
    · rw [range_order]
      split
      · simp
      · rcases hl : load_symbol env2.curSymbol env2.curAsk env2.asks
          env2.notifs (pyLower s2) with ⟨res, ev⟩
        rcases res with e | r
        · have he : e = Err.symbolNotFound :=
            load_symbol_error _ _ _ _ _ e (by rw [hl])
          subst he
          simp
        · simp

/-- Order environment at midnight: outside the regular session. -/
def envHoursOff : OrderEnv :=
  ⟨0, "x", "", fun _ => "", fun _ => "", false⟩

/-- Witness for C5 at a timestamp outside the session. -/
theorem market_hours_gate_witness :
    time_between envHoursOff.now (9 * 60 + 30) (16 * 60) = false ∧
    market_order envHoursOff .buy "aapl" 100 "DAY"
      = (.error .outsideMarketHours, []) ∧
    stop_market_order envHoursOff .buy "aapl" 100 5 "DAY"
      = (.error .outsideMarketHours, []) := by
  have h := market_hours_gate envHoursOff .buy "aapl" 100 "DAY" 5 (by decide)
  exact ⟨by decide, h.1, h.2.1⟩

/-- Order environment inside market hours with a successful load and no
popup. -/
def envC7 : OrderEnv :=
  ⟨600, "x", "", fun _ => "1", fun _ => "", false⟩

/-- C7 (code bug): on normal completion with a Buy direction and a valid
TIF, `stop_market_order`, `stop_limit_order` and `range_order` return
Python `None` — a falsy value, not the success signal `True` that the
docstrings of the first two promise — while `market_order` and
`limit_order` do return `True`. -/
theorem stop_orders_return_none :
    (stop_market_order envC7 .buy "aapl" 100 5 "DAY").1 = .ok none ∧
    (stop_limit_order envC7 .buy "aapl" 100 5 6 "DAY").1 = .ok none ∧
    (range_order envC7 .buy "aapl" 100 5 6 "DAY").1 = .ok none ∧
    (market_order envC7 .buy "aapl" 100 "DAY").1 = .ok (some true) ∧
    (limit_order envC7 .buy "aapl" 100 5 "DAY").1 = .ok (some true) ∧
    (Except.ok (none : Option Bool) : Except Err (Option Bool))
      ≠ .ok (some true) := by
  exact ⟨rfl, rfl, rfl, rfl, rfl, by simp⟩

/-- Order environment inside market hours with a successful load and the
short-locate popup present. -/
def envC8 : OrderEnv :=
  ⟨600, "x", "", fun _ => "1", fun _ => "", true⟩

/-- Counterexample for C8 as stated: a Short `stop_market_order` in an
environment where the popup is present returns `None` — neither the
not-filled signal `False` nor the submitted signal `True` — because the
stop, stop-limit and range submitters have no popup handling at all. -/
theorem short_stop_market_no_popup_check :
    (stop_market_order envC8 .short "aapl" 100 5 "DAY").1 = .ok none ∧
    (Except.ok (none : Option Bool) : Except Err (Option Bool))
      ≠ .ok (some false) ∧
    (Except.ok (none : Option Bool) : Except Err (Option Bool))
      ≠ .ok (some true) := by
  exact ⟨rfl, by simp, by simp⟩

/-- C8 (amended): for a Short order submitted through `limit_order` or
`market_order` (the two kinds with popup handling), a present popup is
dismissed and the call returns the not-filled signal `False`; with no
popup it returns the submitted signal `True`; neither outcome raises. -/
theorem short_popup_limit_market (env : OrderEnv) (sym : String)
    (sa : Int) (lp : ℚ) (tif : String) (r : Option Bool) (ev : List Event)
    (htif : validTIF tif = true)
    (hin : time_between env.now (9 * 60 + 30) (16 * 60) = true)
    (hload : load_symbol env.curSymbol env.curAsk env.asks env.notifs
      (pyLower sym) = (.ok r, ev)) :
    (limit_order env .short sym sa lp tif).1
      = .ok (some (!env.popupPresent)) ∧
    (market_order env .short sym sa tif).1
      = .ok (some (!env.popupPresent)) := by
  cases hp : env.popupPresent <;>
    exact ⟨by simp [limit_order, htif, hload, hp],
      by simp [market_order, hin, htif, hload, hp]⟩

/-- Witness for the amended C8: popup present, both kinds report not
filled. -/
theorem short_popup_limit_market_witness :
    validTIF "DAY" = true ∧ envC8.popupPresent = true ∧
    (limit_order envC8 .short "aapl" 100 5 "DAY").1 = .ok (some false) ∧
    (market_order envC8 .short "aapl" 100 "DAY").1 = .ok (some false) := by
  have h := short_popup_limit_market envC8 "aapl" 100 5 "DAY"
    (some true) [.typeSymbolLookup "aapl"] (by decide) (by decide) rfl
  exact ⟨by decide, rfl, h.1, h.2⟩

end TradeZero
